import Mathlib

/-!
Verification development for the DeepScribe Clinical Trials Finder.

The repository ships the React client (App.jsx, TrialCard.jsx, api.js) and a
README.  The Flask backend (heuristic extractor, LLM adapter, query builder,
registry client, result filter) is not part of the available sources, so those
components are modelled from the specification text; every such definition is
marked with a doc comment starting with the words Modelled from the spec.
All client-side definitions are direct shallow embeddings of the JSX sources.
-/

namespace Deepscribe

/-- Lowercase a string character by character (JS toLowerCase on the
alphabet the app uses). -/
def lowerStr (s : String) : String :=
  (s.data.map Char.toLower).asString

/-- Numeric value of a decimal digit character. -/
def digitVal (c : Char) : Nat := c.toNat - ('0').toNat

/-- Parse the leading run of decimal digits of a string, if any.
Used to read registry age bounds such as "18" or "18 Years". -/
def parseLeadingNat (s : String) : Option Nat :=
  let ds := s.data.takeWhile Char.isDigit
  if ds.isEmpty then none
  else some (ds.foldl (fun a c => a * 10 + digitVal c) 0)

/-- Whether the character list `needle` occurs contiguously inside `hay`
(JS String.includes over char lists). -/
def containsSeq (needle : List Char) : List Char → Bool
  | [] => needle.isEmpty
  | c :: t => needle.isPrefixOf (c :: t) || containsSeq needle t

/-- JS-style substring test: does `hay` contain `needle`. -/
def strIncludes (hay needle : String) : Bool :=
  containsSeq needle.data hay.data

/-- Accumulate maximal alphanumeric runs of a character list into tokens. -/
def tokensAux (cur : List Char) : List Char → List String
  | [] => if cur.isEmpty then [] else [cur.reverse.asString]
  | c :: t =>
    if c.isAlphanum then tokensAux (c :: cur) t
    else if cur.isEmpty then tokensAux [] t
    else cur.reverse.asString :: tokensAux [] t

/-- Lowercased alphanumeric tokens of a transcript
("58-year-old Woman" becomes ["58", "year", "old", "woman"]). -/
def tokenize (s : String) : List String :=
  tokensAux [] (s.data.map Char.toLower)

/-- Patient sex as extracted from a transcript. -/
inductive Sex where
  | male
  | female
  | unknown
deriving DecidableEq

/-- Lowercase word naming a known sex; empty for unknown. -/
def sexWord : Sex → String
  | .male => "male"
  | .female => "female"
  | .unknown => ""

/-- Structured patient attributes derived from a transcript.  Each field is
either a valid typed value or the unknown/empty marker. -/
structure PatientProfile where
  age : Option Nat
  sex : Sex
  diagnosis : Option String
  keywords : List String
  locations : List String
deriving DecidableEq

/-- Modelled from the spec: lexicon of words that indicate a female patient
(the sex pass of the Heuristic Extractor; backend source absent from the
repository snapshot). -/
def femaleWords : List String := ["female", "woman", "she", "her"]

/-- Modelled from the spec: lexicon of words that indicate a male patient. -/
def maleWords : List String := ["male", "man", "he", "him"]

/-- Modelled from the spec: the age pass of the Heuristic Extractor, a numeric
pattern near the words denoting age (a number directly before "year"/"years",
or directly after "age"/"aged"). -/
def ageFromTokens : List String → Option Nat
  | [] => none
  | [_] => none
  | t :: u :: rest =>
    if u == "year" || u == "years" || u == "yo" || u == "yr" then
      match parseLeadingNat t with
      | some n => some n
      | none => ageFromTokens (u :: rest)
    else if t == "age" || t == "aged" then
      match parseLeadingNat u with
      | some n => some n
      | none => ageFromTokens (u :: rest)
    else ageFromTokens (u :: rest)

/-- Modelled from the spec: the sex pass of the Heuristic Extractor, a keyword
match against a small lexicon (female words checked before male words so that
"woman" is not shadowed by its suffix "man"). -/
def sexFromTokens (ts : List String) : Sex :=
  if ts.any (fun t => femaleWords.contains t) then .female
  else if ts.any (fun t => maleWords.contains t) then .male
  else .unknown

/-- Modelled from the spec: curated diagnosis term list (domain examples named
by the spec: HER2/breast cancer, HFrEF). -/
def diagnosisTerms : List String :=
  ["her2-positive invasive ductal carcinoma", "invasive ductal carcinoma",
   "her2-positive breast cancer", "breast cancer", "hfref", "heart failure"]

/-- Modelled from the spec: curated keyword term list. -/
def keywordTerms : List String :=
  ["her2", "metastatic", "carcinoma", "chemotherapy", "breast cancer",
   "hfref", "heart failure"]

/-- Modelled from the spec: curated place-name list for the locations pass. -/
def locationTerms : List String :=
  ["san francisco", "new york", "boston", "chicago", "california"]

/-- Modelled from the spec: the Heuristic Extractor, independent passes per
field, never failing; absent or ambiguous evidence yields the unknown/empty
marker.  The backend source is absent from the repository snapshot. -/
def heuristicExtract (t : String) : PatientProfile :=
  let low := lowerStr t
  let ts := tokenize t
  { age := ageFromTokens ts
    sex := sexFromTokens ts
    diagnosis := diagnosisTerms.find? (fun d => strIncludes low d)
    keywords := keywordTerms.filter (fun k => strIncludes low k)
    locations := locationTerms.filter (fun k => strIncludes low k) }

/-- JSON-like value returned by the external LLM service. -/
inductive JVal where
  | jnull
  | jnum (n : Int)
  | jstr (s : String)
  | jarr (elems : List JVal)

/-- The five fields of the LLM JSON contract; a missing key is `none`. -/
structure LLMFields where
  age : Option JVal
  sex : Option JVal
  diagnosis : Option JVal
  keywords : Option JVal
  locations : Option JVal

/-- Outcome of the LLM call: total failure (timeout, network error, non-JSON
body, service unconfigured) or a parsed JSON object. -/
inductive LLMOutcome where
  | failure
  | ok (fields : LLMFields)

/-- Type check for the age field of the LLM response. -/
def validAge : JVal → Option Nat
  | .jnum n => if 0 ≤ n then some n.toNat else none
  | _ => none

/-- Type check for the sex field of the LLM response. -/
def validSex : JVal → Option Sex
  | .jstr s =>
    if lowerStr s == "male" then some .male
    else if lowerStr s == "female" then some .female
    else none
  | _ => none

/-- Type check for a string field of the LLM response. -/
def validStr : JVal → Option String
  | .jstr s => some s
  | _ => none

/-- Type check for a string-list field of the LLM response. -/
def validStrList : JVal → Option (List String)
  | .jarr xs => xs.mapM validStr
  | _ => none

/-- Modelled from the spec: the LLM Extractor Adapter with field-level
fallback.  On total failure the whole extraction is delegated to the Heuristic
Extractor; otherwise any field that is missing, null or fails its type check
is substituted by the corresponding heuristic field. -/
def extract (resp : LLMOutcome) (t : String) : PatientProfile :=
  let h := heuristicExtract t
  match resp with
  | .failure => h
  | .ok f =>
    { age :=
        match f.age.bind validAge with
        | some a => some a
        | none => h.age
      sex := (f.sex.bind validSex).getD h.sex
      diagnosis :=
        match f.diagnosis.bind validStr with
        | some d => some d
        | none => h.diagnosis
      keywords := (f.keywords.bind validStrList).getD h.keywords
      locations := (f.locations.bind validStrList).getD h.locations }

/-- A registry study as the client consumes it: the classic study_fields
shape with PascalCase, list-valued fields (TrialCard.jsx reads exactly these
fields).  A missing key is `none`; the empty record has every field `none`. -/
structure Study where
  NCTId : Option (List String) := none
  BriefTitle : Option (List String) := none
  OverallStatus : Option (List String) := none
  Condition : Option (List String) := none
  Gender : Option (List String) := none
  MinimumAge : Option (List String) := none
  MaximumAge : Option (List String) := none
  LocationCity : Option (List String) := none
  LocationState : Option (List String) := none
  LocationCountry : Option (List String) := none
  Phase : Option (List String) := none
  StudyType : Option (List String) := none
  InterventionName : Option (List String) := none
  BriefSummary : Option (List String) := none
deriving DecidableEq

/-- The study object with no fields at all, the JS literal with empty braces. -/
def emptyStudy : Study := {}

/-- JS expression `(field || [])[0]`: element 0 of a possibly missing list. -/
def elem0 (f : Option (List String)) : Option String :=
  (f.getD []).head?

/-- JS expression `v || d` on strings: `undefined` and the empty string are
falsy and give the default. -/
def jsOr (v : Option String) (d : String) : String :=
  match v with
  | none => d
  | some "" => d
  | some s => s

/-- JS `s.slice(0, n)`: the first at most `n` characters of a string. -/
def jsTake (s : String) (n : Nat) : String :=
  (s.data.take n).asString

/-- TrialCard.jsx helper `line`: a missing or empty list renders as the
placeholder, otherwise the elements joined with a comma. -/
def line (f : Option (List String)) : String :=
  match f with
  | none => "—"
  | some [] => "—"
  | some xs => String.intercalate ", " xs

/-- Replace each maximal run of non-alphanumeric characters by one
underscore; `prev` records whether the previous character was in such a run
(the regex replace in the badge class computation). -/
def squashAux (prev : Bool) : List Char → List Char
  | [] => []
  | c :: t =>
    if c.isAlphanum then c :: squashAux false t
    else if prev then squashAux true t
    else '_' :: squashAux true t

/-- TrialCard.jsx badge class: lowercase the status and replace runs of
non-alphanumeric characters by underscores. -/
def badgeClassOf (status : String) : String :=
  (squashAux false (status.data.map Char.toLower)).asString

/-- The values TrialCard.jsx computes from a study before rendering,
one field per `const` binding plus the rendered headline, summary paragraph
text and link target. -/
structure CardView where
  id : Option String
  title : Option String
  status : Option String
  headline : String
  badgeClass : String
  cond : String
  gender : String
  minAge : String
  maxAge : String
  city : String
  state : String
  country : String
  phase : String
  studyType : String
  interventions : String
  summary : String
  summaryPara : String
  url : Option String
deriving DecidableEq

/-- Shallow embedding of the TrialCard component body (TrialCard.jsx). -/
def trialCardView (s : Study) : CardView :=
  let id := elem0 s.NCTId
  let title := elem0 s.BriefTitle
  let status := elem0 s.OverallStatus
  let summary := jsTake (jsOr (elem0 s.BriefSummary) "") 280
  { id := id
    title := title
    status := status
    headline := jsOr title "Untitled Trial"
    badgeClass :=
      match status with
      | none => ""
      | some st => badgeClassOf st
    cond := line s.Condition
    gender := jsOr (elem0 s.Gender) "All"
    minAge := jsOr (elem0 s.MinimumAge) "N/A"
    maxAge := jsOr (elem0 s.MaximumAge) "N/A"
    city := line s.LocationCity
    state := line s.LocationState
    country := line s.LocationCountry
    phase := line s.Phase
    studyType := line s.StudyType
    interventions := line s.InterventionName
    summary := summary
    summaryPara := summary ++ (if summary.length = 280 then "…" else "")
    url :=
      match id with
      | none => none
      | some "" => none
      | some i => some ("https://clinicaltrials.gov/study/" ++ i) }

/-- Modelled from the spec: numeric age bound of a registry record, read from
element 0 of the bound field; a missing or unparseable bound is `none` and is
treated as unbounded by the filter. -/
def ageBound (f : Option (List String)) : Option Nat :=
  (elem0 f).bind parseLeadingNat

/-- Modelled from the spec: the age clause of the Result Filter; the profile
age is unknown, or it falls within the inclusive record bounds, a missing
bound being unbounded.  Backend source absent from the repository snapshot. -/
def ageOk (p : PatientProfile) (s : Study) : Bool :=
  match p.age with
  | none => true
  | some a =>
    (match ageBound s.MinimumAge with
     | none => true
     | some m => decide (m ≤ a)) &&
    (match ageBound s.MaximumAge with
     | none => true
     | some mx => decide (a ≤ mx))

/-- Modelled from the spec: does the record gender admit the given sex word,
being the literal "All" or a case-insensitive match. -/
def genderMatches (s : Study) (w : String) : Bool :=
  let g := (elem0 s.Gender).getD ""
  g == "All" || lowerStr g == w

/-- Modelled from the spec: the sex clause of the Result Filter; the profile
sex is unknown, or the record gender is "All" or matches case-insensitively. -/
def sexOk (p : PatientProfile) (s : Study) : Bool :=
  match p.sex with
  | .unknown => true
  | .male => genderMatches s "male"
  | .female => genderMatches s "female"

/-- Modelled from the spec: the Result Filter eligibility rule, keeping a
record iff both the age clause and the sex clause hold. -/
def keepRecord (p : PatientProfile) (s : Study) : Bool :=
  ageOk p s && sexOk p s

/-- Modelled from the spec: the Result Filter with the no-empty-state policy;
keep the strictly eligible records in upstream order, but if that set is empty
while the input is not, fall back to the first `n` unfiltered records. -/
def selectStudies (p : PatientProfile) (recs : List Study) (n : Nat) : List Study :=
  let kept := recs.filter (keepRecord p)
  if kept.isEmpty && !recs.isEmpty then recs.take n else kept.take n

/-- Result of one match request as the UI consumes it. -/
structure MatchResult where
  expr : String
  count : Nat
  studies : List Study
deriving DecidableEq

/-- Modelled from the spec: building the MatchResult of one match request
from the search expression and the filtered studies. -/
def buildMatchResult (e : String) (p : PatientProfile) (recs : List Study) (n : Nat) : MatchResult :=
  let studies := selectStudies p recs n
  { expr := e, count := studies.length, studies := studies }

/-- The three registry query shapes, in fallback priority order. -/
inductive Shape where
  | primary
  | secondary
  | tertiary

/-- Modelled from the spec: a raw registry record, either a well-formed study
object or a malformed entry that normalization skips. -/
inductive RawRecord where
  | invalid
  | record (s : Study)

/-- Modelled from the spec: per-record normalization; a malformed record is
skipped, never failing the whole batch. -/
def normalizeRecord : RawRecord → Option Study
  | .invalid => none
  | .record s => some s

/-- Outcome of one registry request: a non-2xx response, or a payload of raw
records (possibly empty or all invalid). -/
inductive ShapeResponse where
  | httpError
  | payload (records : List RawRecord)

/-- Modelled from the spec: one query-shape attempt; fails on a non-2xx
response or an empty/invalid payload, otherwise returns the normalized
records. -/
def attemptShape : ShapeResponse → Option (List Study)
  | .httpError => none
  | .payload rs =>
    let ns := rs.filterMap normalizeRecord
    if ns.isEmpty then none else some ns

/-- Modelled from the spec: the Registry Client fallback chain, trying the
primary, secondary and tertiary shapes in order and stopping at the first
success; `none` is RegistryUnavailable. -/
def tryShapes (f : Shape → ShapeResponse) : Option (List Study) :=
  match attemptShape (f .primary) with
  | some ns => some ns
  | none =>
    match attemptShape (f .secondary) with
    | some ns => some ns
    | none => attemptShape (f .tertiary)

/-- The five useState cells of the App component (App.jsx). -/
structure AppState where
  transcript : String
  loading : Bool
  extracted : Option PatientProfile
  results : Option MatchResult
  error : String
deriving DecidableEq

/-- Outcome of the awaited extractData call inside onExtract: the thrown
path (network error or non-2xx response) or the parsed payload. -/
inductive ExtractOutcome where
  | failure
  | success (extracted : PatientProfile)

/-- Outcome of the awaited matchTrials call inside onMatch. -/
inductive MatchOutcome where
  | failure
  | success (extracted : PatientProfile) (results : MatchResult)

/-- Shallow embedding of the onExtract handler: clear the error, set loading,
then either store the extracted payload or set the error message, and finally
clear loading. -/
def onExtract (s : AppState) (o : ExtractOutcome) : AppState :=
  let s1 := { s with error := "", loading := true }
  let s2 :=
    match o with
    | .success d => { s1 with extracted := some d }
    | .failure => { s1 with error := "Failed to extract data" }
  { s2 with loading := false }

/-- Shallow embedding of the onMatch handler: clear the error, set loading,
then either store both payload fields or set the error message, and finally
clear loading. -/
def onMatch (s : AppState) (o : MatchOutcome) : AppState :=
  let s1 := { s with error := "", loading := true }
  let s2 :=
    match o with
    | .success d r => { s1 with extracted := some d, results := some r }
    | .failure => { s1 with error := "Failed to fetch matches" }
  { s2 with loading := false }

/-- What the results section of App.jsx renders from a MatchResult. -/
structure ResultsView where
  heading : String
  query : String
  cards : List CardView
deriving DecidableEq

/-- Shallow embedding of the results section of App.jsx: the heading uses
results.count, the query line uses results.expr, and the grid maps
results.studies through TrialCard. -/
def resultsSection (r : MatchResult) : ResultsView :=
  { heading := "Top Matching Trials (" ++ toString r.count ++ ")"
    query := r.expr
    cards := r.studies.map trialCardView }

/-- Kind of a field in a record schema: scalar or sequence of strings. -/
inductive FieldKind where
  | scalar
  | seqStr
deriving DecidableEq

/-- Modelled from the spec: the StudyRecord schema of the data model section,
field names with their scalar/sequence kinds, in the order the spec lists
them. -/
def specStudyRecordSchema : List (String × FieldKind) :=
  [("nctId", .scalar), ("briefTitle", .scalar), ("overallStatus", .scalar),
   ("conditions", .seqStr), ("gender", .scalar), ("minAge", .scalar),
   ("maxAge", .scalar), ("locationCity", .seqStr), ("locationState", .seqStr),
   ("locationCountry", .seqStr), ("phase", .seqStr), ("studyType", .seqStr),
   ("interventionNames", .seqStr), ("briefSummary", .scalar)]

/-- How TrialCard.jsx reads a list-valued study field: element 0, or joined
with commas. -/
inductive ReadMode where
  | elem0Read
  | joinedRead
deriving DecidableEq

/-- TrialCard.jsx reads of the study fields, in source order, each with the
way its list value is consumed. -/
def trialCardFieldReads : List (String × ReadMode) :=
  [("NCTId", .elem0Read), ("BriefTitle", .elem0Read),
   ("OverallStatus", .elem0Read), ("Condition", .joinedRead),
   ("Gender", .elem0Read), ("MinimumAge", .elem0Read),
   ("MaximumAge", .elem0Read), ("LocationCity", .joinedRead),
   ("LocationState", .joinedRead), ("LocationCountry", .joinedRead),
   ("Phase", .joinedRead), ("StudyType", .joinedRead),
   ("InterventionName", .joinedRead), ("BriefSummary", .elem0Read)]

/-- Modelled from the spec: the field names of MatchResult. -/
def matchResultFields : List String := ["expr", "count", "studies"]

/-- The results fields the App component reads, in order of appearance in
the results section of App.jsx. -/
def appResultReads : List String := ["count", "expr", "studies"]

/-- The patient profile of the worked example in the spec, age 58 and
female sex. -/
def profile58F : PatientProfile :=
  { age := some 58, sex := .female, diagnosis := none,
    keywords := [], locations := [] }

/-- The retained record of the worked example: bounds 18 to 75, gender
Female. -/
def recordAdult : Study :=
  { emptyStudy with
      MinimumAge := some ["18"]
      MaximumAge := some ["75"]
      Gender := some ["Female"] }

/-- The excluded record of the worked example: bounds 0 to 17. -/
def recordChild : Study :=
  { emptyStudy with
      MinimumAge := some ["0"]
      MaximumAge := some ["17"]
      Gender := some ["All"] }

/-- Propositional reading of the Result Filter eligibility rule as the spec
words it: the profile age is unknown or lies within the inclusive bounds with
a missing bound unbounded, and the profile sex is unknown or the record
gender is "All" or matches case-insensitively. -/
def KeepSpec (p : PatientProfile) (s : Study) : Prop :=
  (p.age = none ∨ ∃ a, p.age = some a ∧
    (∀ m, ageBound s.MinimumAge = some m → m ≤ a) ∧
    (∀ mx, ageBound s.MaximumAge = some mx → a ≤ mx)) ∧
  (p.sex = Sex.unknown ∨ (elem0 s.Gender).getD "" = "All" ∨
    lowerStr ((elem0 s.Gender).getD "") = sexWord p.sex)

/-- The Boolean filter agrees with its propositional reading. -/
theorem keep_iff (p : PatientProfile) (s : Study) :
    keepRecord p s = true ↔ KeepSpec p s := by
  unfold keepRecord KeepSpec
  rw [Bool.and_eq_true]
  have hage : ageOk p s = true ↔
      (p.age = none ∨ ∃ a, p.age = some a ∧
        (∀ m, ageBound s.MinimumAge = some m → m ≤ a) ∧
        (∀ mx, ageBound s.MaximumAge = some mx → a ≤ mx)) := by
    unfold ageOk
    cases hA : p.age with
    | none => simp
    | some a =>
      simp only [Bool.and_eq_true]
      cases hm : ageBound s.MinimumAge <;> cases hmx : ageBound s.MaximumAge <;>
        simp_all
  have hsex : sexOk p s = true ↔
      (p.sex = Sex.unknown ∨ (elem0 s.Gender).getD "" = "All" ∨
        lowerStr ((elem0 s.Gender).getD "") = sexWord p.sex) := by
    unfold sexOk genderMatches
    cases hS : p.sex <;> simp [sexWord]
  rw [hage, hsex]

/-- C1.  No-empty-state law: for every patient profile and non-empty input
sequence, if the strict eligibility pass retains zero records then the
returned MatchResult.studies is non-empty and equals the first N records of
the unfiltered input (for a positive page size N). -/
theorem result_filter_no_empty_state (p : PatientProfile) (recs : List Study)
    (n : Nat) (e : String) (hrecs : recs ≠ []) (hn : 0 < n)
    (hfilter : recs.filter (keepRecord p) = []) :
    (buildMatchResult e p recs n).studies = recs.take n ∧
    (buildMatchResult e p recs n).studies ≠ [] := by
  have hsel : selectStudies p recs n = recs.take n := by
    unfold selectStudies
    rw [hfilter]
    simp [List.isEmpty_iff, hrecs]
  constructor
  · simpa [buildMatchResult] using hsel
  · rw [show (buildMatchResult e p recs n).studies = selectStudies p recs n from rfl,
      hsel]
    simp [List.take_eq_nil_iff, hrecs, Nat.pos_iff_ne_zero.mp hn]

/-- Witness for C1: a 58-year-old female profile against a single pediatric
record, which the strict pass rejects, still yields that record. -/
theorem result_filter_no_empty_state_check :
    (buildMatchResult "q" profile58F [recordChild] 1).studies =
      [recordChild].take 1 ∧
    (buildMatchResult "q" profile58F [recordChild] 1).studies ≠ [] :=
  result_filter_no_empty_state profile58F [recordChild] 1 "q"
    (by decide) (by decide) (by decide)

/-- C2.  Result Filter eligibility rule: a record is kept iff the profile age
is unknown or within the inclusive bounds (missing bounds unbounded) and the
profile sex is unknown or the gender is "All" or matches case-insensitively;
for profile age 58 female, the record with bounds 18 to 75 and gender Female
is retained and the record with bounds 0 to 17 is excluded. -/
theorem result_filter_eligibility_rule :
    (∀ p s, keepRecord p s = true ↔ KeepSpec p s) ∧
    keepRecord profile58F recordAdult = true ∧
    keepRecord profile58F recordChild = false :=
  ⟨keep_iff, by decide, by decide⟩

/-- Registry fixture whose primary shape already succeeds. -/
def wShapesPrimaryOk : Shape → ShapeResponse := fun _ =>
  ShapeResponse.payload [RawRecord.record recordAdult]

/-- Registry fixture whose primary shape returns an empty payload and whose
secondary shape returns three valid records. -/
def wShapesSecondary : Shape → ShapeResponse := fun sh =>
  match sh with
  | .primary => .payload []
  | .secondary =>
    .payload [.record recordAdult, .record recordChild, .record emptyStudy]
  | .tertiary => .httpError

/-- Registry fixture whose first two shapes fail. -/
def wShapesTertiary : Shape → ShapeResponse := fun sh =>
  match sh with
  | .primary => .payload []
  | .secondary => .httpError
  | .tertiary => .payload [.record recordAdult]

/-- C3.  Registry Client fallback order: the primary shape is tried first and
its success is final; on its failure the secondary shape decides, then the
tertiary; in particular an empty primary payload followed by three valid
secondary records yields exactly those three records, normalized. -/
theorem registry_client_fallback_order :
    (∀ f ns, attemptShape (f Shape.primary) = some ns → tryShapes f = some ns) ∧
    (∀ f ns, attemptShape (f Shape.primary) = none →
      attemptShape (f Shape.secondary) = some ns → tryShapes f = some ns) ∧
    (∀ f, attemptShape (f Shape.primary) = none →
      attemptShape (f Shape.secondary) = none →
      tryShapes f = attemptShape (f Shape.tertiary)) ∧
    (∀ f s1 s2 s3, f Shape.primary = ShapeResponse.payload [] →
      f Shape.secondary = ShapeResponse.payload
        [RawRecord.record s1, RawRecord.record s2, RawRecord.record s3] →
      tryShapes f = some [s1, s2, s3]) := by
  refine ⟨?_, ?_, ?_, ?_⟩
  · intro f ns h
    unfold tryShapes
    rw [h]
  · intro f ns h1 h2
    unfold tryShapes
    rw [h1, h2]
  · intro f h1 h2
    unfold tryShapes
    rw [h1, h2]
  · intro f s1 s2 s3 h1 h2
    unfold tryShapes
    rw [h1, h2]
    rfl

/-- Witness for C3: the fallback chain on the three concrete fixtures. -/
theorem registry_client_fallback_order_check :
    tryShapes wShapesPrimaryOk = some [recordAdult] ∧
    tryShapes wShapesSecondary = some [recordAdult, recordChild, emptyStudy] ∧
    tryShapes wShapesTertiary = attemptShape (wShapesTertiary Shape.tertiary) ∧
    tryShapes wShapesSecondary = some [recordAdult, recordChild, emptyStudy] :=
  ⟨registry_client_fallback_order.1 wShapesPrimaryOk [recordAdult] rfl,
   registry_client_fallback_order.2.1 wShapesSecondary
     [recordAdult, recordChild, emptyStudy] rfl rfl,
   registry_client_fallback_order.2.2.1 wShapesTertiary rfl rfl,
   registry_client_fallback_order.2.2.2 wShapesSecondary recordAdult recordChild
     emptyStudy rfl rfl⟩

/-- Every field of the profile is a valid typed value or the unknown/empty
marker. -/
def ProfileWellFormed (p : PatientProfile) : Prop :=
  (p.age = none ∨ ∃ n, p.age = some n) ∧
  (p.sex = Sex.male ∨ p.sex = Sex.female ∨ p.sex = Sex.unknown) ∧
  (p.diagnosis = none ∨ ∃ d, p.diagnosis = some d) ∧
  (∃ ks, p.keywords = ks) ∧
  (∃ ls, p.locations = ls)

/-- C4.  Totality of extraction: for every transcript (the empty one
included) and every LLM outcome, extract returns a PatientProfile in which
every field is a valid typed value or the unknown/empty marker; on the empty
transcript with no LLM it is the all-unknown profile. -/
theorem extract_total_and_typed :
    (∀ resp t, ProfileWellFormed (extract resp t)) ∧
    extract LLMOutcome.failure "" =
      { age := none, sex := Sex.unknown, diagnosis := none,
        keywords := [], locations := [] } := by
  constructor
  · intro resp t
    refine ⟨?_, ?_, ?_, ⟨_, rfl⟩, ⟨_, rfl⟩⟩
    · cases h : (extract resp t).age with
      | none => exact Or.inl rfl
      | some a => exact Or.inr ⟨a, rfl⟩
    · cases h : (extract resp t).sex with
      | male => exact Or.inl rfl
      | female => exact Or.inr (Or.inl rfl)
      | unknown => exact Or.inr (Or.inr rfl)
    · cases h : (extract resp t).diagnosis with
      | none => exact Or.inl rfl
      | some d => exact Or.inr ⟨d, rfl⟩
  · decide

/-- C5.  StudyRecord schema versus rendering: the data-model schema lists the
fourteen camelCase fields with exactly the stated sequence fields, while the
rendering reads PascalCase list-valued fields disjoint from them, taking
element 0 of the scalar projections (NCTId, BriefTitle, OverallStatus,
Gender, MinimumAge, MaximumAge, BriefSummary) and joining the rest. -/
theorem study_record_schema_vs_rendering :
    specStudyRecordSchema.map Prod.fst =
      ["nctId", "briefTitle", "overallStatus", "conditions", "gender",
       "minAge", "maxAge", "locationCity", "locationState", "locationCountry",
       "phase", "studyType", "interventionNames", "briefSummary"] ∧
    (specStudyRecordSchema.filter (fun f => f.2 == FieldKind.seqStr)).map Prod.fst =
      ["conditions", "locationCity", "locationState", "locationCountry",
       "phase", "studyType", "interventionNames"] ∧
    ((trialCardFieldReads.map Prod.fst).all
      (fun f => !((specStudyRecordSchema.map Prod.fst).contains f))) = true ∧
    (trialCardFieldReads.filter (fun f => f.2 == ReadMode.elem0Read)).map Prod.fst =
      ["NCTId", "BriefTitle", "OverallStatus", "Gender", "MinimumAge",
       "MaximumAge", "BriefSummary"] ∧
    (∀ s,
      (trialCardView s).id = elem0 s.NCTId ∧
      (trialCardView s).title = elem0 s.BriefTitle ∧
      (trialCardView s).status = elem0 s.OverallStatus ∧
      (trialCardView s).gender = jsOr (elem0 s.Gender) "All" ∧
      (trialCardView s).minAge = jsOr (elem0 s.MinimumAge) "N/A" ∧
      (trialCardView s).maxAge = jsOr (elem0 s.MaximumAge) "N/A" ∧
      (trialCardView s).summary = jsTake (jsOr (elem0 s.BriefSummary) "") 280 ∧
      (trialCardView s).cond = line s.Condition ∧
      (trialCardView s).city = line s.LocationCity ∧
      (trialCardView s).state = line s.LocationState ∧
      (trialCardView s).country = line s.LocationCountry ∧
      (trialCardView s).phase = line s.Phase ∧
      (trialCardView s).studyType = line s.StudyType ∧
      (trialCardView s).interventions = line s.InterventionName) :=
  ⟨by decide, by decide, by decide, by decide, fun s =>
    ⟨rfl, rfl, rfl, rfl, rfl, rfl, rfl, rfl, rfl, rfl, rfl, rfl, rfl, rfl⟩⟩

set_option maxRecDepth 4000

/-- A study whose brief summary is 300 characters long. -/
def longSummaryStudy : Study :=
  { emptyStudy with BriefSummary := some [(List.replicate 300 'a').asString] }

/-- Counterexample for C6: on a 300-character brief summary the rendered
summary paragraph carries 281 characters, the 280-character truncation plus
the appended ellipsis, so the displayed text exceeds 280 characters. -/
theorem summary_truncation_cex :
    ((trialCardView longSummaryStudy).summaryPara).length = 281 ∧
    ¬ ((trialCardView longSummaryStudy).summaryPara).length ≤ 280 := by
  constructor
  · decide
  · decide

/-- C6 (amended).  Summary truncation: the summary value is the first at most
280 characters of the brief summary, empty when the summary is absent; the
rendered paragraph appends one ellipsis character when the truncation hits
exactly 280, so the paragraph never exceeds 281 characters. -/
theorem summary_truncation_amended :
    ∀ s : Study,
      (trialCardView s).summary = jsTake (jsOr (elem0 s.BriefSummary) "") 280 ∧
      (trialCardView s).summary.length ≤ 280 ∧
      (trialCardView s).summaryPara.length ≤ 281 ∧
      (trialCardView { s with BriefSummary := none }).summary = "" := by
  intro s
  have hlen : ∀ (str : String) (n : Nat), (jsTake str n).length ≤ n := by
    intro str n
    show (str.data.take n).length ≤ n
    simp [List.length_take]
  refine ⟨rfl, hlen _ _, ?_, rfl⟩
  show ((trialCardView s).summary ++
    (if (trialCardView s).summary.length = 280 then "…" else "")).length ≤ 281
  rw [String.length_append]
  have h1 : (trialCardView s).summary.length ≤ 280 := hlen _ _
  have h2 : (if (trialCardView s).summary.length = 280 then ("…" : String)
      else "").length ≤ 1 := by
    split <;> decide
  omega

/-- C7.  Absent list fields never throw: a missing or empty list field
renders as the placeholder, the scalar projections fall back to their
defaults, and rendering is total, succeeding in particular on the empty
record. -/
theorem absent_fields_render_total :
    line none = "—" ∧ line (some []) = "—" ∧
    (∀ s, ∃ c, trialCardView s = c) ∧
    trialCardView emptyStudy =
      { id := none, title := none, status := none,
        headline := "Untitled Trial", badgeClass := "", cond := "—",
        gender := "All", minAge := "N/A", maxAge := "N/A", city := "—",
        state := "—", country := "—", phase := "—", studyType := "—",
        interventions := "—", summary := "", summaryPara := "",
        url := none } :=
  ⟨rfl, rfl, fun s => ⟨_, rfl⟩, by decide⟩

/-- C8.  MatchResult shape: a successful match carries exactly the fields
expr, count and studies, the count being the number of selected studies, and
the results section of the UI consumes precisely those three fields. -/
theorem match_result_shape_and_consumption :
    (∀ r, resultsSection r =
      { heading := "Top Matching Trials (" ++ toString r.count ++ ")",
        query := r.expr, cards := r.studies.map trialCardView }) ∧
    (∀ e p recs n,
      (buildMatchResult e p recs n).expr = e ∧
      (buildMatchResult e p recs n).count =
        (buildMatchResult e p recs n).studies.length ∧
      (buildMatchResult e p recs n).studies = selectStudies p recs n) ∧
    matchResultFields.Perm appResultReads :=
  ⟨fun r => rfl, fun e p recs n => ⟨rfl, rfl, rfl⟩, by decide⟩

/-- C9.  Error atomicity of the UI state: a failing extract or match request
leaves the transcript, the extracted data and the results unchanged and sets
only the error message, with loading cleared. -/
theorem ui_error_atomicity :
    ∀ s : AppState,
      (onExtract s ExtractOutcome.failure).extracted = s.extracted ∧
      (onExtract s ExtractOutcome.failure).results = s.results ∧
      (onExtract s ExtractOutcome.failure).transcript = s.transcript ∧
      (onExtract s ExtractOutcome.failure).error = "Failed to extract data" ∧
      (onExtract s ExtractOutcome.failure).loading = false ∧
      (onMatch s MatchOutcome.failure).extracted = s.extracted ∧
      (onMatch s MatchOutcome.failure).results = s.results ∧
      (onMatch s MatchOutcome.failure).transcript = s.transcript ∧
      (onMatch s MatchOutcome.failure).error = "Failed to fetch matches" ∧
      (onMatch s MatchOutcome.failure).loading = false :=
  fun _ => ⟨rfl, rfl, rfl, rfl, rfl, rfl, rfl, rfl, rfl, rfl⟩

/-- C10.  Frame property of extract-only: a successful onExtract stores the
payload in extracted, clears the error, ends with loading off and never
touches results or the transcript; onExtract preserves results on every
outcome, while a successful onMatch is the operation that writes results. -/
theorem extract_frame_property :
    (∀ s d,
      (onExtract s (ExtractOutcome.success d)).results = s.results ∧
      (onExtract s (ExtractOutcome.success d)).extracted = some d ∧
      (onExtract s (ExtractOutcome.success d)).error = "" ∧
      (onExtract s (ExtractOutcome.success d)).loading = false ∧
      (onExtract s (ExtractOutcome.success d)).transcript = s.transcript) ∧
    (∀ s o, (onExtract s o).results = s.results) ∧
    (∀ s d r, (onMatch s (MatchOutcome.success d r)).results = some r) :=
  ⟨fun _ _ => ⟨rfl, rfl, rfl, rfl, rfl⟩,
   fun s o => by cases o <;> rfl,
   fun _ _ _ => rfl⟩

end Deepscribe
